import Mathlib

/-!
Shallow embedding of the Authentication and Session Core of
acme-shop-users-service (Go), together with theorems settling the
frozen claims about it.

Conventions of the embedding:
  - Go strings are Lean String values; for the hash-format functions all
    distinguishing inputs are ASCII, where Go byte length and Lean
    character length agree.
  - Wall-clock time is a Nat (Unix seconds); Go time.Now() is an explicit
    parameter now.
  - External collaborators (the bcrypt library, the MD5 and SHA1 digest
    functions, the Redis client, the Postgres repository) are modelled as
    explicit parameters or explicit state, with the behaviour the source
    relies on.
  - Fallible Go functions return Except; a Go nil-pointer dereference
    (a runtime panic) is modelled as the value none of an Option wrapper.
-/

deriving instance DecidableEq for Except

namespace AcmeUsers

/-! ## internal/auth/password.go -/

/-- Hash type constant from internal/auth/password.go. -/
def HashTypeMD5 : String := "md5"

/-- Hash type constant from internal/auth/password.go. -/
def HashTypeSHA1 : String := "sha1"

/-- Hash type constant from internal/auth/password.go. -/
def HashTypeBcrypt : String := "bcrypt"

/-- One character of the Go isHexString loop: digits, lowercase a-f, or
uppercase A-F (the source accepts both cases). -/
def isHexChar (c : Char) : Bool :=
  (('0' ≤ c && c ≤ '9') || ('a' ≤ c && c ≤ 'f') || ('A' ≤ c && c ≤ 'F'))

/-- Embeds isHexString from internal/auth/password.go. -/
def isHexString (s : String) : Bool :=
  s.toList.all isHexChar

/-- Go strings.HasPrefix for the two-character bcrypt marker: the string
begins with the characters dollar and 2 (byte and character prefix agree
since the marker is ASCII). -/
def hasBcryptMarker (s : String) : Bool :=
  match s.toList with
  | '$' :: '2' :: _ => true
  | _ => false

/-- Embeds DetectHashType from internal/auth/password.go: empty string
gives the empty (unknown) type; any string starting with the two
characters dollar-2 is bcrypt; 32 hex characters is md5; 40 hex
characters is sha1; anything else unknown. -/
def DetectHashType (hash : String) : String :=
  if hash.length = 0 then ""
  else if hasBcryptMarker hash then HashTypeBcrypt
  else if hash.length = 32 && isHexString hash then HashTypeMD5
  else if hash.length = 40 && isHexString hash then HashTypeSHA1
  else ""

/-- The two deprecated digest algorithms (crypto/md5 and crypto/sha1 of
the Go standard library, hex encoded), abstracted as functions from the
password text to its digest string. -/
structure LegacyDigests where
  md5 : String → String
  sha1 : String → String

/-- Embeds PasswordService.CheckPassword from internal/auth/password.go.
The parameter bcryptCompare stands for bcrypt.CompareHashAndPassword
succeeding (first argument the stored hash, second the password); dig
holds the legacy digest functions. The enableLegacy field of the service
is passed in as a parameter: the source stores it in the struct but the
body of CheckPassword never reads it. -/
def CheckPassword (dig : LegacyDigests) (bcryptCompare : String → String → Bool)
    (enableLegacy : Bool) (password hash : String) : Bool × Bool :=
  let hashType := DetectHashType hash
  if hashType = HashTypeBcrypt then
    (bcryptCompare hash password, false)
  else if hashType = HashTypeMD5 then
    (dig.md5 password == hash, true)
  else if hashType = HashTypeSHA1 then
    (dig.sha1 password == hash, true)
  else
    (false, false)

/-- Error values of interest around password hashing: the three input
errors declared in internal/auth/errors.go (never used by the source),
and a failure coming back from the bcrypt library. -/
inductive PasswordError where
  | passwordEmpty
  | passwordTooShort
  | passwordTooLong
  | bcryptFailure (msg : String)
deriving DecidableEq, Repr

/-- Model of bcrypt.GenerateFromPassword of golang.org/x/crypto v0.16.0:
it fails only when the password exceeds 72 bytes, and otherwise returns
a salted hash, abstracted as the function saltedHash (randomized salting
makes it a fresh value per call; any one call is one such function). -/
def bcryptGenerateFromPassword (saltedHash : String → String) (password : String) :
    Except PasswordError String :=
  if 72 < password.utf8ByteSize then
    .error (.bcryptFailure "password length exceeds 72 bytes")
  else
    .ok (saltedHash password)

/-- Embeds PasswordService.HashPassword from internal/auth/password.go:
it calls the bcrypt generator on the given password and forwards its
result, performing no input validation of its own. -/
def HashPassword (gen : String → Except PasswordError String) (password : String) :
    Except PasswordError String :=
  match gen password with
  | .error e => .error e
  | .ok h => .ok h

/-- Embeds PasswordService.MigratePasswordHash from
internal/auth/password.go, which just delegates to HashPassword. -/
def MigratePasswordHash (gen : String → Except PasswordError String) (password : String) :
    Except PasswordError String :=
  HashPassword gen password

/-! ## Session store (third file of internal/auth/errors.go group) -/

/-- Error results of SessionService.Get. -/
inductive SessionError where
  | notFound
  | expired
  | invalid
deriving DecidableEq, Repr

/-- Embeds the Session struct: the JSON payload stored in Redis. -/
structure Session where
  id : String
  userID : String
  email : String
  role : String
  createdAt : Nat
  expiresAt : Nat
  ipAddress : String
  userAgent : String
  active : Bool
deriving DecidableEq, Repr

/-- The constant sessionTTL (24 hours), in seconds. -/
def sessionTTL : Nat := 24 * 60 * 60

/-- The Redis key for a session id, sessionPrefixed as in the source. -/
def sessionKeyOf (sessionID : String) : String :=
  "session:" ++ sessionID

/-- The Redis session keyspace, modelled as an association list from keys
to stored payloads. A payload that json.Unmarshal would reject is the
value none; a payload that deserializes to session s is some s. -/
abbrev SessionKV := List (String × Option Session)

/-- Lookup in the modelled keyspace; none is the redis.Nil absent-key
result. -/
def kvLookup (store : SessionKV) (key : String) : Option (Option Session) :=
  match store with
  | [] => none
  | (k, v) :: rest => if k = key then some v else kvLookup rest key

/-- The constant alphabet of randomSessionString. -/
def sessionLetters : List Char :=
  "abcdefghijklmnopqrstuvwxyzABCDEFGHIJKLMNOPQRSTUVWXYZ0123456789".toList

/-- Embeds randomSessionString: b[i] = letters[i % len(letters)], a pure
function of the requested length (the source body involves no source of
randomness despite its name). -/
def randomSessionString (n : Nat) : String :=
  String.mk ((List.range n).map fun i => sessionLetters.getD (i % sessionLetters.length) 'a')

/-- Embeds generateSessionID: a sess- tag followed by
randomSessionString 24. -/
def generateSessionID : String :=
  "sess-" ++ randomSessionString 24

/-- Embeds SessionService.Create as far as the session value it builds
and persists: id from generateSessionID, createdAt = now, expiresAt =
now + sessionTTL, active = true. -/
def sessionCreate (now : Nat) (userID email role ipAddress userAgent : String) : Session :=
  { id := generateSessionID
    userID := userID
    email := email
    role := role
    createdAt := now
    expiresAt := now + sessionTTL
    ipAddress := ipAddress
    userAgent := userAgent
    active := true }

/-- Embeds SessionService.Get: absent key gives notFound; a payload that
fails to deserialize gives invalid; then now after expiresAt gives
expired; then an inactive record gives invalid; otherwise the session is
returned. -/
def sessionGet (store : SessionKV) (now : Nat) (sessionID : String) :
    Except SessionError Session :=
  match kvLookup store (sessionKeyOf sessionID) with
  | none => .error .notFound
  | some none => .error .invalid
  | some (some s) =>
    if s.expiresAt < now then .error .expired
    else if !s.active then .error .invalid
    else .ok s

/-- One write performed against the Redis client: the key, the record
marshalled into it, and the TTL passed to Set (an Int, since Go
time.Until may in general be negative). -/
structure SessionWrite where
  key : String
  value : Session
  ttl : Int
deriving DecidableEq, Repr

/-- Embeds SessionService.Revoke: re-fetch through Get, set Active to
false, re-marshal, and Set under the same key with TTL
time.Until(ExpiresAt), the time remaining until the original expiry. -/
def sessionRevoke (store : SessionKV) (now : Nat) (sessionID : String) :
    Except SessionError SessionWrite :=
  match sessionGet store now sessionID with
  | .error e => .error e
  | .ok s =>
    let revoked := { s with active := false }
    .ok { key := sessionKeyOf sessionID
          value := revoked
          ttl := (revoked.expiresAt : Int) - (now : Int) }

/-- Embeds SessionService.Refresh: re-fetch through Get, extend
expiresAt to now + sessionTTL, rewrite with the full sessionTTL. -/
def sessionRefresh (store : SessionKV) (now : Nat) (sessionID : String) :
    Except SessionError SessionWrite :=
  match sessionGet store now sessionID with
  | .error e => .error e
  | .ok s =>
    let extended := { s with expiresAt := now + sessionTTL }
    .ok { key := sessionKeyOf sessionID
          value := extended
          ttl := (sessionTTL : Int) }

/-! ## internal/auth/jwt.go -/

/-- Error values of internal/auth/jwt.go. -/
inductive TokenError where
  | invalidToken
  | expiredToken
  | invalidClaims
deriving DecidableEq, Repr

/-- Embeds JWTClaims: registered issued-at, expiry and not-before plus
the identity and session-linkage claims. -/
structure JWTClaims where
  userID : String
  email : String
  role : String
  sessionID : String
  issuedAt : Nat
  expiresAt : Nat
  notBefore : Nat
deriving DecidableEq, Repr

/-- A wire token: either a well-formed HS256 token signed under some
secret and carrying claims, or an undecodable string. -/
inductive Token where
  | signed (secret : String) (claims : JWTClaims)
  | malformed (raw : String)
deriving DecidableEq, Repr

/-- Embeds JWTService.GenerateToken: issuedAt = notBefore = now,
expiresAt = now + expiration, signed with the service secret. -/
def GenerateToken (secret : String) (expiration now : Nat)
    (userID email role sessionID : String) : Token :=
  .signed secret
    { userID := userID
      email := email
      role := role
      sessionID := sessionID
      issuedAt := now
      expiresAt := now + expiration
      notBefore := now }

/-- Embeds JWTService.ValidateToken over the jwt v5 library semantics:
an undecodable or wrongly-signed token is invalidToken; a correctly
signed token whose expiresAt has passed is expiredToken (the only error
the source maps from jwt.ErrTokenExpired); a token not yet at notBefore
fails jwt parsing with an error the source maps to invalidToken;
otherwise the claims are returned. -/
def ValidateToken (secret : String) (now : Nat) : Token → Except TokenError JWTClaims
  | .malformed _ => .error .invalidToken
  | .signed s c =>
    if s ≠ secret then .error .invalidToken
    else if c.expiresAt < now then .error .expiredToken
    else if now < c.notBefore then .error .invalidToken
    else .ok c

/-- Embeds JWTService.RefreshToken. The Go body is:
claims, err := ValidateToken(token); if err is non-nil and not
ErrExpiredToken, return err; then mutate claims.IssuedAt and
claims.ExpiresAt and sign. When ValidateToken returns ErrExpiredToken it
returns a nil claims pointer, so the subsequent field assignment
dereferences nil: that runtime panic is modelled as none. A successful
or error return is some. -/
def RefreshToken (secret : String) (expiration now : Nat) (tok : Token) :
    Option (Except TokenError Token) :=
  match ValidateToken secret now tok with
  | .ok c =>
    some (.ok (.signed secret { c with issuedAt := now, expiresAt := now + expiration }))
  | .error e =>
    if e = .expiredToken then
      none
    else
      some (.error e)

/-- Embeds JWTClaimsV1, the legacy claims format. -/
structure JWTClaimsV1 where
  userID : String
  email : String
  issuedAt : Nat
  expiresAt : Nat
deriving DecidableEq, Repr

/-- A legacy v1 token: claims signed under a secret. -/
structure TokenV1 where
  secret : String
  claims : JWTClaimsV1
deriving DecidableEq, Repr

/-- Embeds JWTService.GenerateTokenV1. -/
def GenerateTokenV1 (secret : String) (expiration now : Nat) (userID email : String) : TokenV1 :=
  { secret := secret
    claims :=
      { userID := userID
        email := email
        issuedAt := now
        expiresAt := now + expiration } }

/-! ## internal/service/auth_service.go -/

/-- Error results surfaced by the auth service (shared-go errors
package). -/
inductive AuthError where
  | invalidCredentials
  | userInactive
  | deprecatedAPI
deriving DecidableEq, Repr

/-- A stored account row as the service reads it: GetByEmail returns the
user (id, email, role, active) and GetPasswordHash returns its stored
hash. -/
structure RepoUser where
  id : String
  email : String
  role : String
  active : Bool
  passwordHash : String
deriving DecidableEq, Repr

/-- The credential repository state: the stored account rows. -/
abbrev Repo := List RepoUser

/-- Embeds PostgresUserStore.GetByEmail: the stored row with the given
email, or the not-found result. -/
def getByEmail (repo : Repo) (email : String) : Option RepoUser :=
  repo.find? fun u => u.email == email

/-- Embeds PostgresUserStore.UpdatePasswordHash: rewrite the stored hash
of the row with the given id. -/
def updatePasswordHash (repo : Repo) (userID newHash : String) : Repo :=
  repo.map fun u => if u.id == userID then { u with passwordHash := newHash } else u

/-- The dependencies AuthService is built from: the digest and bcrypt
collaborators of the password service, the configuration flags, and the
JWT signing parameters. -/
structure AuthDeps where
  dig : LegacyDigests
  bcryptCompare : String → String → Bool
  bcryptGen : String → Except PasswordError String
  enableLegacy : Bool
  enablePasswordMigration : Bool
  enableV1API : Bool
  jwtSecret : String
  jwtExpiration : Nat

/-- The successful outcome of Login: the minted token, the created
session, and the repository state after the best-effort migration
write. -/
structure LoginResult where
  token : Token
  session : Session
  repoAfter : Repo
deriving DecidableEq, Repr

/-- Embeds AuthService.Login (the v2 path), with the external stores as
explicit state. The source order is kept exactly: fetch by email
(not-found collapses to invalidCredentials), then the Active check, then
GetPasswordHash and CheckPassword (an invalid password collapses to
invalidCredentials), then the best-effort migration write, then session
creation and token issuance. -/
def Login (d : AuthDeps) (repo : Repo) (now : Nat)
    (email password ipAddress userAgent : String) : Except AuthError LoginResult :=
  match getByEmail repo email with
  | none => .error .invalidCredentials
  | some user =>
    if !user.active then .error .userInactive
    else
      let vm := CheckPassword d.dig d.bcryptCompare d.enableLegacy password user.passwordHash
      if !vm.1 then .error .invalidCredentials
      else
        let repoAfter :=
          if vm.2 && d.enablePasswordMigration then
            match MigratePasswordHash d.bcryptGen password with
            | .ok newHash => updatePasswordHash repo user.id newHash
            | .error _ => repo
          else repo
        let session := sessionCreate now user.id user.email user.role ipAddress userAgent
        let token := GenerateToken d.jwtSecret d.jwtExpiration now
          user.id user.email user.role session.id
        .ok { token := token, session := session, repoAfter := repoAfter }

/-- Embeds AuthService.LoginV1, the deprecated legacy path guarded by
the EnableV1API feature flag. The source fetches the user (any error
collapses to invalidCredentials), verifies the password, and issues a
legacy token; it contains no check of the Active flag. -/
def LoginV1 (d : AuthDeps) (repo : Repo) (now : Nat)
    (email password : String) : Except AuthError TokenV1 :=
  if !d.enableV1API then .error .deprecatedAPI
  else
    match getByEmail repo email with
    | none => .error .invalidCredentials
    | some user =>
      let vm := CheckPassword d.dig d.bcryptCompare d.enableLegacy password user.passwordHash
      if !vm.1 then .error .invalidCredentials
      else .ok (GenerateTokenV1 d.jwtSecret d.jwtExpiration now user.id user.email)

/-! ## Concrete fixtures used by witnesses and counterexamples -/

/-- A 32 lowercase hex string standing for the MD5 digest of the
password rightpw in the fixtures. -/
def md5DigestOfRight : String := "aaaabbbbccccdddd0000111122223333"

/-- A 32 lowercase hex string different from md5DigestOfRight, standing
for the MD5 digest of every other input in the fixtures. -/
def md5DigestOther : String := "00000000000000000000000000000000"

/-- A concrete instantiation of the legacy digest collaborators: md5
maps rightpw to md5DigestOfRight and everything else to md5DigestOther;
sha1 maps everything to a fixed 40 hex string. -/
def dig0 : LegacyDigests :=
  { md5 := fun p => if p = "rightpw" then md5DigestOfRight else md5DigestOther
    sha1 := fun _ => "aaaabbbbccccdddd0000111122223333aaaa1111" }

/-- A concrete bcrypt comparison collaborator that accepts nothing (no
fixture uses a bcrypt hash). -/
def bc0 : String → String → Bool := fun _ _ => false

/-- A concrete single bcrypt generation call: a version marker glued to
the input stands for the salted hash this call produced. -/
def bgen0 : String → Except PasswordError String :=
  bcryptGenerateFromPassword fun p => "$2a$12$" ++ p

/-- Fixture dependencies: legacy support disabled by the flag, migration
on, v1 API enabled, one day of token lifetime. -/
def deps0 : AuthDeps :=
  { dig := dig0
    bcryptCompare := bc0
    bcryptGen := bgen0
    enableLegacy := false
    enablePasswordMigration := true
    enableV1API := true
    jwtSecret := "s3cret"
    jwtExpiration := 86400 }

/-- Fixture account: inactive, with the legacy weak (32 hex) stored
hash of rightpw. -/
def inactiveUser : RepoUser :=
  { id := "u1"
    email := "a@x.com"
    role := "customer"
    active := false
    passwordHash := md5DigestOfRight }

/-- Fixture repository holding only the inactive account. -/
def repo0 : Repo := [inactiveUser]

/-- Fixture live session stored under session:abc, expiring at time
1000. -/
def s0 : Session :=
  { id := "abc"
    userID := "u1"
    email := "a@x.com"
    role := "customer"
    createdAt := 0
    expiresAt := 1000
    ipAddress := "127.0.0.1"
    userAgent := "curl"
    active := true }

/-- Fixture session keyspace holding only s0. -/
def store0 : SessionKV := [("session:abc", some s0)]

/-! ## Helper lemmas -/

/-- The classification function only ever returns one of its four
constant results. -/
theorem detectHashType_cases (h : String) :
    DetectHashType h = "" ∨ DetectHashType h = HashTypeBcrypt
      ∨ DetectHashType h = HashTypeMD5 ∨ DetectHashType h = HashTypeSHA1 := by
  unfold DetectHashType
  split_ifs <;> decide

/-- An empty string cannot carry the bcrypt marker. -/
theorem hasBcryptMarker_of_empty (h : String) (hl : h.length = 0) :
    hasBcryptMarker h = false := by
  have hd : h.data = [] := List.length_eq_zero.mp hl
  unfold hasBcryptMarker
  rw [show h.toList = h.data from rfl, hd]

/-! ## Claim theorems -/

/-- C1: evaluation of the source at the failing input. The claim says
Login verifies the password first and checks the Active flag after, so
an incorrect password on an inactive account yields invalidCredentials.
On the source the Active check precedes password verification: for the
stored inactive account and a password that CheckPassword rejects, Login
returns the inactive-account error and not invalidCredentials, so the
account and its inactive state are revealed without the password. -/
theorem C1_login_checks_active_before_password :
    (CheckPassword deps0.dig deps0.bcryptCompare deps0.enableLegacy
        "wrongpw" inactiveUser.passwordHash).1 = false
    ∧ Login deps0 repo0 5 "a@x.com" "wrongpw" "ip" "ua" = .error .userInactive
    ∧ Login deps0 repo0 5 "a@x.com" "wrongpw" "ip" "ua" ≠ .error .invalidCredentials := by
  decide

/-- C2: evaluation of the source at the failing input. The claim says a
token whose only validation failure is TokenExpired is refreshed into a
new signed token. On the source, ValidateToken returns a nil claims
pointer together with ErrExpiredToken, and RefreshToken then assigns
through that nil pointer: the run faults (none in the model) instead of
producing a token. -/
theorem C2_refresh_of_expired_token_faults :
    ValidateToken "s3cret" 90000
        (GenerateToken "s3cret" 86400 0 "u1" "a@x.com" "customer" "sess1")
      = .error .expiredToken
    ∧ RefreshToken "s3cret" 86400 90000
        (GenerateToken "s3cret" 86400 0 "u1" "a@x.com" "customer" "sess1")
      = none := by
  decide

/-- C3: evaluation of the source at the failing input. The claim says
every two calls of Create produce distinct session ids. The source
builds the id from randomSessionString, whose body takes
letters[i % 62] and involves no randomness, so every call of
generateSessionID, and hence every Create, yields the very same id. -/
theorem C3_every_session_id_is_the_same :
    generateSessionID = "sess-abcdefghijklmnopqrstuvwx"
    ∧ (sessionCreate 0 "u1" "a@x.com" "customer" "1.1.1.1" "curl").id
        = (sessionCreate 999 "u2" "b@x.com" "admin" "2.2.2.2" "moz").id := by
  decide

/-- C4: evaluation of the source at the failing input. The claim says
that with enableLegacy set to false, CheckPassword answers
(false, false) on a LegacyWeak hash without evaluating the legacy
digest. The source stores the flag but never reads it: with the flag
false and a 32-hex stored hash equal to the digest of the password,
CheckPassword still computes the digest and answers (true, true). -/
theorem C4_legacy_branch_runs_with_flag_disabled :
    DetectHashType md5DigestOfRight = HashTypeMD5
    ∧ CheckPassword dig0 bc0 false "rightpw" md5DigestOfRight = (true, true)
    ∧ CheckPassword dig0 bc0 false "rightpw" md5DigestOfRight ≠ (false, false) := by
  decide

/-- C5 counterexample: the claim says needsMigration is true only when
the password is valid, so a wrong password against a LegacyWeak hash
yields needsMigration false. On the source the MD5 branch sets
needsMigration to true unconditionally: with a wrong password the answer
is (valid, needsMigration) = (false, true). -/
theorem C5_wrong_password_still_flags_migration :
    (CheckPassword dig0 bc0 true "wrongpw" md5DigestOfRight).1 = false
    ∧ (CheckPassword dig0 bc0 true "wrongpw" md5DigestOfRight).2 = true := by
  decide

/-- C7: evaluation of the source at the failing input. The claim says
HashPassword rejects an empty password with PasswordEmpty and a
password shorter than 8 characters with PasswordTooShort before any
hashing. The source performs no input validation at all: it hands the
password straight to the bcrypt generator, which succeeds on both
inputs, so a hash is produced where the claim requires an error. -/
theorem C7_hash_password_skips_input_validation :
    HashPassword bgen0 "" = .ok "$2a$12$"
    ∧ HashPassword bgen0 "abc" = .ok "$2a$12$abc"
    ∧ HashPassword bgen0 "" ≠ .error .passwordEmpty
    ∧ HashPassword bgen0 "abc" ≠ .error .passwordTooShort := by
  decide

/-- C5 amended: for every password and stored hash, CheckPassword
answers needsMigration true exactly when the classified scheme is one of
the two legacy ones, independent of whether the password is valid. -/
theorem C5_needs_migration_iff_legacy_scheme
    (dig : LegacyDigests) (bc : String → String → Bool) (el : Bool) (p h : String) :
    (CheckPassword dig bc el p h).2 = true
      ↔ (DetectHashType h = HashTypeMD5 ∨ DetectHashType h = HashTypeSHA1) := by
  rcases detectHashType_cases h with h0 | h0 | h0 | h0 <;>
    simp [CheckPassword, h0, HashTypeBcrypt, HashTypeMD5, HashTypeSHA1]

/-- C6 counterexample: the claim says a dollar-2 string whose total
length is not 60 and a 32-character uppercase hex string both classify
Unknown. On the source, any string carrying the two-character dollar-2
marker classifies bcrypt regardless of length, and the hex check accepts
both cases, so the 32-character uppercase string classifies md5. -/
theorem C6_short_bcrypt_and_uppercase_hex_classified :
    DetectHashType "$2" = HashTypeBcrypt
    ∧ ("$2").length ≠ 60
    ∧ DetectHashType "ABCDEF0123456789ABCDEF0123456789" = HashTypeMD5 := by
  decide

/-- Modelled from the amended wording of C6: any string carrying the
two-character bcrypt marker classifies Current regardless of total
length; otherwise 32 hex characters of either case classify LegacyWeak
and 40 classify LegacyStrong; everything else is Unknown. -/
def classifyAmended (h : String) : String :=
  if hasBcryptMarker h then HashTypeBcrypt
  else if h.length = 32 && isHexString h then HashTypeMD5
  else if h.length = 40 && isHexString h then HashTypeSHA1
  else ""

/-- C6 amended: the source classification agrees with classifyAmended on
every string, so classification is a pure function of the hash string
with bcrypt decided by the marker alone (any length) and the hex digests
accepted in either case. -/
theorem C6_detect_matches_amended_classification (h : String) :
    DetectHashType h = classifyAmended h := by
  unfold DetectHashType classifyAmended
  by_cases hl : h.length = 0
  · have hm : hasBcryptMarker h = false := hasBcryptMarker_of_empty h hl
    have h32 : ¬(h.length = 32) := by omega
    have h40 : ¬(h.length = 40) := by omega
    simp [hl, hm, h32, h40]
  · simp [hl]

/-- C8: the contract of SessionService.Get. Whatever the stored state,
a session returned by Get is active and not yet past its expiry; an
absent key gives the not-found error; a payload that fails to
deserialize gives the invalid error; a deserializable payload past its
expiry gives the expired error; and a live-but-inactive payload gives
the invalid error. -/
theorem C8_session_get_contract (store : SessionKV) (now : Nat) (id : String) :
    (∀ s, sessionGet store now id = .ok s → s.active = true ∧ ¬ s.expiresAt < now)
    ∧ (kvLookup store (sessionKeyOf id) = none →
        sessionGet store now id = .error .notFound)
    ∧ (kvLookup store (sessionKeyOf id) = some none →
        sessionGet store now id = .error .invalid)
    ∧ (∀ s, kvLookup store (sessionKeyOf id) = some (some s) →
        s.expiresAt < now → sessionGet store now id = .error .expired)
    ∧ (∀ s, kvLookup store (sessionKeyOf id) = some (some s) →
        ¬ s.expiresAt < now → s.active = false →
        sessionGet store now id = .error .invalid) := by
  refine ⟨?_, ?_, ?_, ?_, ?_⟩
  · intro s hs
    unfold sessionGet at hs
    rcases hk : kvLookup store (sessionKeyOf id) with _ | (_ | s')
    · rw [hk] at hs; cases hs
    · rw [hk] at hs; cases hs
    · rw [hk] at hs
      dsimp only at hs
      by_cases he : s'.expiresAt < now
      · rw [if_pos he] at hs; cases hs
      · rw [if_neg he] at hs
        by_cases ha : s'.active
        · rw [show (!s'.active) = false by simp [ha]] at hs
          simp only [Bool.false_eq_true, if_false] at hs
          cases hs
          exact ⟨ha, he⟩
        · rw [show (!s'.active) = true by simp [ha]] at hs
          simp only [if_true] at hs
          cases hs
  · intro hk
    unfold sessionGet
    rw [hk]
  · intro hk
    unfold sessionGet
    rw [hk]
  · intro s hk he
    unfold sessionGet
    rw [hk]
    dsimp only
    rw [if_pos he]
  · intro s hk he ha
    unfold sessionGet
    rw [hk]
    dsimp only
    rw [if_neg he, show (!s.active) = true by simp [ha]]
    simp only [if_true]

/-- C8 witness: the contract applied to the concrete fixture store, in
which Get succeeds at time 5 on the stored live session. -/
theorem C8_session_get_contract_witness :
    s0.active = true ∧ ¬ s0.expiresAt < 5 :=
  (C8_session_get_contract store0 5 "abc").1 s0 (by decide)

/-- C9: for every session the store can still Get, Revoke rewrites the
same key with the very same record except that Active is false: every
other field, in particular expiresAt, is unchanged, and the TTL handed
to the store on the rewrite is exactly the time remaining until the
original expiry, so the revoked record still disappears at its original
expiry. -/
theorem C9_revoke_preserves_fields_and_remaining_ttl
    (store : SessionKV) (now : Nat) (id : String) (s : Session)
    (hget : sessionGet store now id = .ok s) :
    sessionRevoke store now id =
      .ok { key := sessionKeyOf id
            value := { s with active := false }
            ttl := (s.expiresAt : Int) - (now : Int) }
    ∧ ({ s with active := false } : Session).id = s.id
    ∧ ({ s with active := false } : Session).userID = s.userID
    ∧ ({ s with active := false } : Session).email = s.email
    ∧ ({ s with active := false } : Session).role = s.role
    ∧ ({ s with active := false } : Session).createdAt = s.createdAt
    ∧ ({ s with active := false } : Session).expiresAt = s.expiresAt
    ∧ ({ s with active := false } : Session).ipAddress = s.ipAddress
    ∧ ({ s with active := false } : Session).userAgent = s.userAgent
    ∧ ({ s with active := false } : Session).active = false := by
  refine ⟨?_, rfl, rfl, rfl, rfl, rfl, rfl, rfl, rfl, rfl⟩
  unfold sessionRevoke
  rw [hget]

/-- C9 witness: Revoke of the fixture session at time 5 performs exactly
the preserved rewrite with the remaining TTL. -/
theorem C9_revoke_witness :
    sessionRevoke store0 5 "abc" =
      .ok { key := sessionKeyOf "abc"
            value := { s0 with active := false }
            ttl := (s0.expiresAt : Int) - (5 : Int) } :=
  (C9_revoke_preserves_fields_and_remaining_ttl store0 5 "abc" s0 (by decide)).1

/-- C10: whenever the v1 API flag is enabled, the account is stored
under the given email, and the supplied password verifies against its
stored hash, LoginV1 succeeds and returns a signed v1 token. The
statement carries no assumption on the Active flag: the path contains no
check of it, so it succeeds in particular for inactive accounts, which
the v2 Login rejects. -/
theorem C10_loginV1_never_checks_active
    (d : AuthDeps) (repo : Repo) (now : Nat) (email password : String) (user : RepoUser)
    (hflag : d.enableV1API = true)
    (hfind : getByEmail repo email = some user)
    (hvalid : (CheckPassword d.dig d.bcryptCompare d.enableLegacy
        password user.passwordHash).1 = true) :
    LoginV1 d repo now email password
      = .ok (GenerateTokenV1 d.jwtSecret d.jwtExpiration now user.id user.email) := by
  unfold LoginV1
  rw [hflag, hfind]
  simp [hvalid]

/-- C10 witness: on the fixture repository whose only account is
inactive, the correct password logs in through the v1 path and yields a
signed token. -/
theorem C10_loginV1_witness :
    inactiveUser.active = false
    ∧ LoginV1 deps0 repo0 7 "a@x.com" "rightpw"
        = .ok (GenerateTokenV1 "s3cret" 86400 7 "u1" "a@x.com") :=
  ⟨by decide,
    C10_loginV1_never_checks_active deps0 repo0 7 "a@x.com" "rightpw" inactiveUser
      (by decide) (by decide) (by decide)⟩

end AcmeUsers
